import Mathlib

/-!
Verification of the core logic of the YouTube transcript GUI tool in
`main.py`: URL to video-id extraction, filename sanitization, the
title-lookup fallback, and the two worker pipelines, embedded shallowly.
Python strings are modelled as Lean `String` values manipulated through
their character lists, Python `None` as `Option.none`, and uncaught
Python exceptions as `Except.error` values.
-/

namespace YTGui

/-- Python exception values that the embedded code can raise. -/
inductive PyError where
  | keyError (key : String)
  | indexError
  | other (msg : String)
deriving Repr, DecidableEq

/-- A single-quote character, written via its code point. -/
def pyQuote : String := String.mk [Char.ofNat 39]

/-- Result of Python `str(e)` for the modelled exceptions: a `KeyError`
displays its key in single quotes. -/
def pyErrStr : PyError → String
  | PyError.keyError k => pyQuote ++ k ++ pyQuote
  | PyError.indexError => "list index out of range"
  | PyError.other m => m

/-- Split a character list at the first occurrence of `c`;
`none` when `c` is absent. -/
def splitAtFirst (c : Char) : List Char → Option (List Char × List Char)
  | [] => none
  | x :: xs =>
    if x = c then some ([], xs)
    else
      match splitAtFirst c xs with
      | some (a, b) => some (x :: a, b)
      | none => none

/-- Tail of Python `str.split(sep)` for a single-character separator:
accumulate the current field, emitting it at each separator. -/
def splitCharAux (sep : Char) : List Char → List Char → List (List Char)
  | [], acc => [acc.reverse]
  | x :: xs, acc =>
    if x = sep then acc.reverse :: splitCharAux sep xs []
    else splitCharAux sep xs (x :: acc)

/-- Python `str.split(sep)` for a single-character separator: the result
is never empty, and splitting the empty string gives one empty field. -/
def splitChar (sep : Char) (l : List Char) : List (List Char) :=
  splitCharAux sep l []

/-- Substring containment test on character lists. -/
def listContainsSeq (needle : List Char) : List Char → Bool
  | [] => needle.isEmpty
  | x :: xs => needle.isPrefixOf (x :: xs) || listContainsSeq needle xs

/-- Python `needle in hay` on strings: substring containment. -/
def pyIn (needle hay : String) : Bool :=
  listContainsSeq needle.data hay.data

/-- Python `s[1:]`. -/
def pyDrop1 (s : String) : String := String.mk (s.data.drop 1)

/-- Characters allowed in a URL scheme (`urllib.parse.scheme_chars`). -/
def isSchemeChar (c : Char) : Bool :=
  c.isAlphanum || c = '+' || c = '-' || c = '.'

/-- Scheme-splitting step of `urllib.parse.urlsplit`: when the text before
the first colon is a nonempty run of scheme characters starting with an
ASCII letter, it is the scheme (lowercased) and parsing continues after
the colon; otherwise there is no scheme. -/
def schemeSplit (l : List Char) : List Char × List Char :=
  match splitAtFirst ':' l with
  | some (pre, post) =>
    if (pre.headD ' ').isAlpha && pre.all isSchemeChar then
      (pre.map Char.toLower, post)
    else ([], l)
  | none => ([], l)

/-- A character that does not end the network-location component. -/
def netlocChar (c : Char) : Bool :=
  !(c == '/' || c == '?' || c == '#')

/-- Network-location step of `urllib.parse.urlsplit`: after a leading
double slash, the netloc runs until the next slash, question mark or
hash character. -/
def netlocSplit (l : List Char) : List Char × List Char :=
  if l.take 2 = ['/', '/'] then
    ((l.drop 2).takeWhile netlocChar, (l.drop 2).dropWhile netlocChar)
  else ([], l)

/-- Split at the first occurrence of `c`, keeping everything when `c` is
absent (Python `str.split(c, 1)` behaviour used by `urlsplit`). -/
def cutAt (c : Char) (l : List Char) : List Char × List Char :=
  match splitAtFirst c l with
  | some (a, b) => (a, b)
  | none => (l, [])

/-- The URL components read by the program. -/
structure UrlParts where
  scheme : String
  netloc : String
  path : String
  query : String
  fragment : String
deriving Repr, DecidableEq

/-- Model of `urllib.parse.urlparse` restricted to the fields the program
reads: scheme, netloc, path, query and fragment. The `params` component
of `urlparse` is not modelled because no embedded code reads it. -/
def urlparse (url : String) : UrlParts :=
  let s1 := schemeSplit url.data
  let s2 := netlocSplit s1.2
  let s3 := cutAt '#' s2.2
  let s4 := cutAt '?' s3.1
  { scheme := String.mk s1.1
    netloc := String.mk s2.1
    path := String.mk s4.1
    query := String.mk s4.2
    fragment := String.mk s3.2 }

/-- Numeric value of an ASCII hexadecimal digit. -/
def hexDigitVal (c : Char) : Option Nat :=
  if c.isDigit then some (c.toNat - 48)
  else if 'a' ≤ c && c ≤ 'f' then some (c.toNat - 87)
  else if 'A' ≤ c && c ≤ 'F' then some (c.toNat - 55)
  else none

/-- Model of `urllib.parse.unquote` on character lists: each percent
escape with two hexadecimal digits becomes the character with that code,
and invalid escapes are kept verbatim. Single-byte decoding only: the
UTF-8 recombination of consecutive multi-byte escapes is not modelled,
which is irrelevant here because the program only reads ASCII video ids. -/
def unquoteChars : List Char → List Char
  | [] => []
  | '%' :: h1 :: h2 :: rest2 =>
    match hexDigitVal h1, hexDigitVal h2 with
    | some v1, some v2 => Char.ofNat (16 * v1 + v2) :: unquoteChars rest2
    | _, _ => '%' :: unquoteChars (h1 :: h2 :: rest2)
  | c :: rest => c :: unquoteChars rest

/-- Plus-to-space replacement followed by unquoting, as `parse_qsl` does
for each name and value. -/
def unquotePlus (l : List Char) : List Char :=
  unquoteChars (l.map fun c => if c = '+' then ' ' else c)

/-- Model of `urllib.parse.parse_qsl` with default arguments: split the
query on ampersands, keep only name=value items with a nonempty value,
and decode plus signs and percent escapes in names and values. -/
def parse_qsl (qs : String) : List (String × String) :=
  (splitChar '&' qs.data).filterMap fun item =>
    match splitAtFirst '=' item with
    | some (name, value) =>
      if value.isEmpty then none
      else some (String.mk (unquotePlus name), String.mk (unquotePlus value))
    | none => none

/-- Append a value to the entry for a key, keeping first-insertion order,
as Python dict insertion does. -/
def addQsPair : List (String × List String) → String → String → List (String × List String)
  | [], k, v => [(k, [v])]
  | (k1, vs) :: rest, k, v =>
    if k1 = k then (k1, vs ++ [v]) :: rest
    else (k1, vs) :: addQsPair rest k v

/-- Model of `urllib.parse.parse_qs`: the pairs of `parse_qsl` grouped
into an insertion-ordered dictionary. -/
def parse_qs (qs : String) : List (String × List String) :=
  (parse_qsl qs).foldl (fun d kv => addQsPair d kv.1 kv.2) []

/-- Python `path.split(slash)[-1]`; `str.split` never returns an empty
list, so the default of `getLastD` is never used. -/
def lastPathSegment (p : String) : String :=
  String.mk ((splitChar '/' p.data).getLastD [])

/-- The method `get_video_id` shared verbatim by `TranscriptListWorker`
and `TranscriptWorker`: `Except.ok none` models Python returning `None`,
and `Except.error` models an uncaught exception (a `KeyError` when the
`v` parameter is missing from a watch URL). -/
def get_video_id (youtube_url : String) : Except PyError (Option String) :=
  let parsed_url := urlparse youtube_url
  if pyIn "youtu.be" parsed_url.netloc then
    Except.ok (some (pyDrop1 parsed_url.path))
  else if pyIn "youtube.com" parsed_url.netloc then
    if pyIn "shorts" parsed_url.path then
      Except.ok (some (lastPathSegment parsed_url.path))
    else
      match List.lookup "v" (parse_qs parsed_url.query) with
      | some (v0 :: _) => Except.ok (some v0)
      | some [] => Except.error PyError.indexError
      | none => Except.error (PyError.keyError "v")
  else
    Except.ok none

/-- The forbidden filename characters of `sanitize_filename`. -/
def invalid_chars : List Char := ['<', '>', ':', '"', '/', '\\', '|', '?', '*']

/-- `TranscriptWorker.sanitize_filename`: drop every forbidden character,
then keep the first 50 characters. -/
def sanitize_filename (title : String) : String :=
  String.mk ((title.data.filter fun c => !(invalid_chars.contains c)).take 50)

/-- The oEmbed metadata URL built inside `get_video_title`. -/
def oembed_url (video_id : String) : String :=
  "https://www.youtube.com/oembed?url=http://www.youtube.com/watch?v="
    ++ video_id ++ "&format=json"

/-- `TranscriptWorker.get_video_title`: `fetchTitle` models the whole
chain of the HTTP GET, the JSON decoding and the title field access; any
exception in that chain makes the function return the video id itself. -/
def get_video_title (fetchTitle : String → Except PyError String)
    (video_id : String) : String :=
  match fetchTitle (oembed_url video_id) with
  | Except.ok title => title
  | Except.error _ => video_id

/-- The formatters dictionary of `TranscriptWorker.run`, restricted to
the file-extension component; `none` models the `KeyError` raised on an
unknown formatter name. -/
def formatter_ext : String → Option String
  | "JSON" => some "json"
  | "Pretty Print" => some "txt"
  | "Text" => some "txt"
  | "WebVTT" => some "vtt"
  | "SRT" => some "srt"
  | _ => none

/-- Python truthiness of the result of `get_video_id` as tested by
`if not video_id:` — both `None` and the empty string are falsy. -/
def optTruthy : Option String → Bool
  | none => false
  | some s => !s.isEmpty

/-- Terminal event of a worker thread: exactly one of the two signals. -/
inductive ListOutcome (τ : Type) where
  | finished (payload : τ)
  | emitError (msg : String)
deriving Repr, DecidableEq

/-- `TranscriptListWorker.run`: `list_transcripts` models the provider
call; the second component records the video ids sent to the provider. -/
def listWorkerRun {τ : Type} (list_transcripts : String → Except PyError τ)
    (url : String) : ListOutcome τ × List String :=
  match get_video_id url with
  | Except.error e => (ListOutcome.emitError (pyErrStr e), [])
  | Except.ok v =>
    if optTruthy v then
      match list_transcripts (v.getD "") with
      | Except.ok t => (ListOutcome.finished t, [v.getD ""])
      | Except.error e => (ListOutcome.emitError (pyErrStr e), [v.getD ""])
    else (ListOutcome.emitError "Could not extract video ID from URL", [])

/-- Terminal event of `TranscriptWorker.run`: an error signal, or a file
write (filename and content) followed by the finished signal carrying the
filename. -/
inductive WorkerOutcome where
  | emitError (msg : String)
  | writeFile (filename : String) (content : String)
deriving Repr, DecidableEq

/-- One call of the transcript-fetch provider: the video id and the
languages argument, where `none` means the argument was omitted so the
provider default applies. -/
structure TranscriptCall where
  videoId : String
  languages : Option (List String)
deriving Repr, DecidableEq

/-- The external collaborators of `TranscriptWorker.run`: the title
metadata endpoint, the transcript provider, and the formatter objects
keyed by formatter name. -/
structure WorkerEnv (τ : Type) where
  fetchTitle : String → Except PyError String
  get_transcript : String → Option (List String) → Except PyError τ
  format_transcript : String → τ → String

/-- `TranscriptWorker.run`, with the transcript-provider calls it makes
recorded in the second component. -/
def transcriptWorkerRun {τ : Type} (env : WorkerEnv τ) (url : String)
    (formatter_name : String) : WorkerOutcome × List TranscriptCall :=
  match get_video_id url with
  | Except.error e => (WorkerOutcome.emitError (pyErrStr e), [])
  | Except.ok v =>
    if optTruthy v then
      let video_id := v.getD ""
      let video_title := get_video_title env.fetchTitle video_id
      let safe_title := sanitize_filename video_title
      match env.get_transcript video_id none with
      | Except.error e =>
        (WorkerOutcome.emitError (pyErrStr e), [⟨video_id, none⟩])
      | Except.ok transcript =>
        match formatter_ext formatter_name with
        | none =>
          (WorkerOutcome.emitError (pyErrStr (PyError.keyError formatter_name)),
            [⟨video_id, none⟩])
        | some ext =>
          (WorkerOutcome.writeFile (safe_title ++ "." ++ ext)
              (env.format_transcript formatter_name transcript),
            [⟨video_id, none⟩])
    else (WorkerOutcome.emitError "Could not extract video ID from URL", [])

/-- The current working directory, as a map from filename to content. -/
def FileSystem := String → Option String

/-- Effect of a worker outcome on the working directory: a file write
replaces whatever was stored under that name, an error changes nothing. -/
def applyOutcome (fs : FileSystem) : WorkerOutcome → FileSystem
  | WorkerOutcome.writeFile name content =>
    fun n => if n = name then some content else fs n
  | WorkerOutcome.emitError _ => fs

/-- The `MainWindow` state visible to `start_conversion`: the URL text,
the formatter selection, and the language and translation selections
(which `start_conversion` does not read). -/
structure UIState where
  urlText : String
  formatterName : String
  languageSelection : Nat
  translationSelection : Nat

/-- Python `str.strip()`: remove leading and trailing whitespace. -/
def pyStrip (s : String) : String :=
  String.mk
    (((s.data.dropWhile Char.isWhitespace).reverse.dropWhile Char.isWhitespace).reverse)

/-- `MainWindow.start_conversion`: the worker is constructed from the
stripped URL text and the current formatter selection only. -/
def start_conversion (ui : UIState) : String × String :=
  (pyStrip ui.urlText, ui.formatterName)

/-- Wording of the specification for the short-link case: the path with
its leading separator stripped. Used to compare `get_video_id` against
the specification text. -/
def stripLeadingSep (p : String) : String :=
  if p.data.headD ' ' = '/' then String.mk (p.data.drop 1) else p

end YTGui

deriving instance DecidableEq for Except

namespace YTGui

/-- After `dropWhile p`, either nothing remains or the head fails `p`. -/
theorem dropWhile_head_false (p : Char → Bool) (l : List Char) :
    l.dropWhile p = [] ∨ p ((l.dropWhile p).headD ' ') = false := by
  induction l with
  | nil => exact Or.inl rfl
  | cons x xs ih =>
    by_cases hx : p x
    · simpa [List.dropWhile_cons, hx] using ih
    · right
      simp [List.dropWhile_cons, hx]

/-- Cutting at the head character removes everything. -/
theorem cutAt_cons_eq (c : Char) (xs : List Char) :
    (cutAt c (c :: xs)).1 = [] := by
  simp [cutAt, splitAtFirst]

/-- Cutting at a character different from the head keeps the head. -/
theorem cutAt_cons_ne (c x : Char) (xs : List Char) (h : x ≠ c) :
    ∃ t, (cutAt c (x :: xs)).1 = x :: t := by
  have hstep : splitAtFirst c (x :: xs)
      = match splitAtFirst c xs with
        | some (a, b) => some (x :: a, b)
        | none => none := by
    simp [splitAtFirst, h]
  cases hs : splitAtFirst c xs with
  | none => exact ⟨xs, by simp [cutAt, hstep, hs]⟩
  | some ab =>
    cases ab with
    | mk a b => exact ⟨a, by simp [cutAt, hstep, hs]⟩

/-- Whenever `urlparse` produces a nonempty netloc, the path component is
either empty or begins with a slash. -/
theorem urlparse_path_shape (url : String) (h : (urlparse url).netloc ≠ "") :
    (urlparse url).path = "" ∨ ∃ t, (urlparse url).path.data = '/' :: t := by
  have hn : (urlparse url).netloc
      = String.mk (netlocSplit (schemeSplit url.data).2).1 := rfl
  have hp : (urlparse url).path
      = String.mk (cutAt '?' (cutAt '#' (netlocSplit (schemeSplit url.data).2).2).1).1 := rfl
  set r1 := (schemeSplit url.data).2 with hr1
  by_cases h2 : r1.take 2 = ['/', '/']
  · have hsnd : (netlocSplit r1).2 = (r1.drop 2).dropWhile netlocChar := by
      simp [netlocSplit, h2]
    rcases hrem : (r1.drop 2).dropWhile netlocChar with _ | ⟨x, xs⟩
    · left
      rw [hp, hsnd, hrem]
      rfl
    · rcases dropWhile_head_false netlocChar (r1.drop 2) with hnil | hhead
      · rw [hrem] at hnil
        exact absurd hnil (by simp)
      · rw [hrem] at hhead
        have hx : x = '/' ∨ x = '?' ∨ x = '#' := by
          by_contra hc
          push_neg at hc
          obtain ⟨hc1, hc2, hc3⟩ := hc
          simp [netlocChar, hc1, hc2, hc3] at hhead
        rcases hx with rfl | rfl | rfl
        · right
          obtain ⟨t, ht⟩ := cutAt_cons_ne '#' '/' xs (by decide)
          obtain ⟨t2, ht2⟩ := cutAt_cons_ne '?' '/' t (by decide)
          refine ⟨t2, ?_⟩
          rw [hp, hsnd, hrem, ht, ht2]
        · left
          obtain ⟨t, ht⟩ := cutAt_cons_ne '#' '?' xs (by decide)
          rw [hp, hsnd, hrem, ht, cutAt_cons_eq]
        · left
          rw [hp, hsnd, hrem, cutAt_cons_eq]
          rfl
  · exfalso
    apply h
    rw [hn]
    simp [netlocSplit, h2]

/-- On an empty path or a path beginning with a slash, the Python slice
starting at index one agrees with stripping the leading separator. -/
theorem pyDrop1_eq_stripLeadingSep (p : String)
    (h : p = "" ∨ ∃ t, p.data = '/' :: t) : pyDrop1 p = stripLeadingSep p := by
  rcases h with rfl | ⟨t, ht⟩
  · rfl
  · simp [pyDrop1, stripLeadingSep, ht]

/-- C2: for every URL whose host contains the short-link domain token
youtu.be, the extractor returns the URL path with its leading separator
stripped. -/
theorem get_video_id_shortlink (url : String)
    (h : pyIn "youtu.be" (urlparse url).netloc = true) :
    get_video_id url = Except.ok (some (stripLeadingSep (urlparse url).path)) := by
  have hne : (urlparse url).netloc ≠ "" := by
    intro he
    rw [he] at h
    exact absurd h (by decide)
  have hdrop := pyDrop1_eq_stripLeadingSep _ (urlparse_path_shape url hne)
  simp [get_video_id, h, hdrop]

/-- Witness for C2 at the concrete input from the specification. -/
theorem get_video_id_shortlink_witness :
    get_video_id "https://youtu.be/dQw4w9WgXcQ" = Except.ok (some "dQw4w9WgXcQ") := by
  rw [get_video_id_shortlink "https://youtu.be/dQw4w9WgXcQ" (by decide)]
  decide

/-- A nonempty string is truthy in Python. -/
theorem optTruthy_some (s : String) (h : s ≠ "") : optTruthy (some s) = true := by
  have he : s.isEmpty = false := by
    cases hb : s.isEmpty
    · rfl
    · exact absurd ((String.isEmpty_iff s).mp hb) h
  simp [optTruthy, he]

/-- C1 (counterexample): a host containing both domain tokens takes the
short-link branch first, so on this URL the extractor returns the path
slice rather than the first value of the v query parameter. -/
theorem get_video_id_watch_counterexample :
    pyIn "youtube.com" (urlparse "https://youtu.be.youtube.com/watch?v=x").netloc = true
    ∧ pyIn "shorts" (urlparse "https://youtu.be.youtube.com/watch?v=x").path = false
    ∧ List.lookup "v" (parse_qs (urlparse "https://youtu.be.youtube.com/watch?v=x").query)
        = some ["x"]
    ∧ get_video_id "https://youtu.be.youtube.com/watch?v=x" = Except.ok (some "watch")
    ∧ get_video_id "https://youtu.be.youtube.com/watch?v=x" ≠ Except.ok (some "x") := by
  decide

/-- C1 (amended): for every URL whose host contains youtube.com but not
youtu.be and whose path does not contain shorts, the extractor returns
the first value of the v query parameter when one is present. -/
theorem get_video_id_watch (url v0 : String) (vs : List String)
    (hbe : pyIn "youtu.be" (urlparse url).netloc = false)
    (hcom : pyIn "youtube.com" (urlparse url).netloc = true)
    (hsh : pyIn "shorts" (urlparse url).path = false)
    (hv : List.lookup "v" (parse_qs (urlparse url).query) = some (v0 :: vs)) :
    get_video_id url = Except.ok (some v0) := by
  simp [get_video_id, hbe, hcom, hsh, hv]

/-- Witness for C1 at the concrete input from the specification. -/
theorem get_video_id_watch_witness :
    get_video_id "https://www.youtube.com/watch?v=dQw4w9WgXcQ&t=5"
      = Except.ok (some "dQw4w9WgXcQ") :=
  get_video_id_watch _ "dQw4w9WgXcQ" [] (by decide) (by decide) (by decide) (by decide)

/-- C3 (counterexample): a host containing both domain tokens takes the
short-link branch first, so on this shorts URL the extractor does not
return the final path segment. -/
theorem get_video_id_shorts_counterexample :
    pyIn "youtube.com" (urlparse "https://youtu.be.youtube.com/shorts/abc").netloc = true
    ∧ pyIn "shorts" (urlparse "https://youtu.be.youtube.com/shorts/abc").path = true
    ∧ lastPathSegment (urlparse "https://youtu.be.youtube.com/shorts/abc").path = "abc"
    ∧ get_video_id "https://youtu.be.youtube.com/shorts/abc" = Except.ok (some "shorts/abc")
    ∧ get_video_id "https://youtu.be.youtube.com/shorts/abc" ≠ Except.ok (some "abc") := by
  decide

/-- C3 (amended): for every URL whose host contains youtube.com but not
youtu.be and whose path contains shorts, the extractor returns the final
path segment. -/
theorem get_video_id_shorts (url : String)
    (hbe : pyIn "youtu.be" (urlparse url).netloc = false)
    (hcom : pyIn "youtube.com" (urlparse url).netloc = true)
    (hsh : pyIn "shorts" (urlparse url).path = true) :
    get_video_id url = Except.ok (some (lastPathSegment (urlparse url).path)) := by
  simp [get_video_id, hbe, hcom, hsh]

/-- Witness for C3 at the concrete input from the specification. -/
theorem get_video_id_shorts_witness :
    get_video_id "https://www.youtube.com/shorts/abc123XYZ_"
      = Except.ok (some "abc123XYZ_") := by
  rw [get_video_id_shorts "https://www.youtube.com/shorts/abc123XYZ_"
    (by decide) (by decide) (by decide)]
  decide

/-- C4: for every URL whose host contains neither domain token, the list
worker signals the extraction error message and makes no provider call,
whatever the provider would have answered. -/
theorem listWorkerRun_invalid_url {τ : Type}
    (provider : String → Except PyError τ) (url : String)
    (hbe : pyIn "youtu.be" (urlparse url).netloc = false)
    (hcom : pyIn "youtube.com" (urlparse url).netloc = false) :
    listWorkerRun provider url
      = (ListOutcome.emitError "Could not extract video ID from URL", []) := by
  have hid : get_video_id url = Except.ok none := by
    simp [get_video_id, hbe, hcom]
  simp [listWorkerRun, hid, optTruthy]

/-- Witness for C4 at the concrete input from the specification. -/
theorem listWorkerRun_invalid_url_witness :
    listWorkerRun (fun _ => Except.ok (0 : Nat)) "https://vimeo.com/12345"
      = (ListOutcome.emitError "Could not extract video ID from URL", []) :=
  listWorkerRun_invalid_url (fun _ => Except.ok (0 : Nat)) "https://vimeo.com/12345"
    (by decide) (by decide)

/-- C9 (counterexample): on the short-link URL with an empty path
remainder the extractor does yield an empty VideoID, but the run rejects
it with the extraction error and makes no provider call, instead of
proceeding to a failing provider call. -/
theorem empty_video_id_counterexample :
    get_video_id "https://youtu.be/" = Except.ok (some "")
    ∧ listWorkerRun (fun _ => Except.ok (1 : Nat)) "https://youtu.be/"
        = (ListOutcome.emitError "Could not extract video ID from URL", []) := by
  decide

/-- C9 (amended): a short-link URL whose path is empty after stripping
the separator yields an empty VideoID, and the truthiness check of the
run rejects it with the extraction error before any provider call. -/
theorem shortlink_empty_id_rejected {τ : Type}
    (provider : String → Except PyError τ) (url : String)
    (hbe : pyIn "youtu.be" (urlparse url).netloc = true)
    (hpath : pyDrop1 (urlparse url).path = "") :
    get_video_id url = Except.ok (some "")
    ∧ listWorkerRun provider url
        = (ListOutcome.emitError "Could not extract video ID from URL", []) := by
  have hid : get_video_id url = Except.ok (some "") := by
    simp [get_video_id, hbe, hpath]
  have ht : optTruthy (some "") = false := by decide
  exact ⟨hid, by simp [listWorkerRun, hid, ht]⟩

/-- C5: sanitization truncates to at most 50 characters, removes every
forbidden character, and is exactly remove-then-truncate with no
separate validation of an empty result. -/
theorem sanitize_filename_spec (T : String) :
    (sanitize_filename T).length ≤ 50
    ∧ (∀ c ∈ (sanitize_filename T).data, c ∉ invalid_chars)
    ∧ sanitize_filename T
        = String.mk ((T.data.filter fun c => !(invalid_chars.contains c)).take 50) := by
  refine ⟨?_, ?_, rfl⟩
  · simp [sanitize_filename, String.length]
  · intro c hc
    have hc2 : c ∈ (T.data.filter fun c => !(invalid_chars.contains c)).take 50 := hc
    have hmem := List.mem_of_mem_take hc2
    have hp := (List.mem_filter.mp hmem).2
    simpa using hp

/-- C10: sanitization is idempotent, because its output already contains
no forbidden character and is already at most 50 characters long. -/
theorem sanitize_filename_idem (T : String) :
    sanitize_filename (sanitize_filename T) = sanitize_filename T := by
  have hfix : ((T.data.filter fun c => !(invalid_chars.contains c)).take 50).filter
      (fun c => !(invalid_chars.contains c))
      = (T.data.filter fun c => !(invalid_chars.contains c)).take 50 :=
    List.filter_eq_self.mpr fun a ha =>
      (List.mem_filter.mp (List.mem_of_mem_take ha)).2
  show String.mk _ = String.mk _
  rw [show (sanitize_filename T).data
      = (T.data.filter fun c => !(invalid_chars.contains c)).take 50 from rfl]
  rw [hfix, List.take_of_length_le (List.length_take_le 50 _)]

/-- C6: a failing title lookup makes `get_video_title` return the
VideoID itself rather than raising, and the pipeline still performs the
file write, using the VideoID as the title and hence its sanitized form
as the filename stem. -/
theorem title_lookup_failure_recovered {τ : Type} (env : WorkerEnv τ)
    (url fmt video_id ext : String) (tr : τ) (e : PyError)
    (hid : get_video_id url = Except.ok (some video_id))
    (hne : video_id ≠ "")
    (hf : env.fetchTitle (oembed_url video_id) = Except.error e)
    (htr : env.get_transcript video_id none = Except.ok tr)
    (hext : formatter_ext fmt = some ext) :
    get_video_title env.fetchTitle video_id = video_id
    ∧ (transcriptWorkerRun env url fmt).1
        = WorkerOutcome.writeFile (sanitize_filename video_id ++ "." ++ ext)
            (env.format_transcript fmt tr) := by
  have ht : get_video_title env.fetchTitle video_id = video_id := by
    simp [get_video_title, hf]
  refine ⟨ht, ?_⟩
  simp [transcriptWorkerRun, hid, optTruthy_some video_id hne, ht, htr, hext]

/-- An environment whose title lookup always fails with a network error. -/
def titleFailEnv : WorkerEnv Nat :=
  ⟨fun _ => Except.error (PyError.other "network failure"),
   fun _ _ => Except.ok 0, fun _ _ => "TRANSCRIPT"⟩

/-- Witness for C6: a simulated metadata network failure still yields a
file write whose stem is the VideoID. -/
theorem title_lookup_failure_recovered_witness :
    get_video_title titleFailEnv.fetchTitle "dQw4w9WgXcQ" = "dQw4w9WgXcQ"
    ∧ (transcriptWorkerRun titleFailEnv "https://youtu.be/dQw4w9WgXcQ" "Text").1
        = WorkerOutcome.writeFile "dQw4w9WgXcQ.txt" "TRANSCRIPT" := by
  have h := title_lookup_failure_recovered titleFailEnv
    "https://youtu.be/dQw4w9WgXcQ" "Text" "dQw4w9WgXcQ" "txt" 0
    (PyError.other "network failure") (by decide) (by decide) rfl rfl rfl
  exact ⟨h.1, by rw [h.2]; rfl⟩

/-- C7: on a successful fetch the run writes the file whose name is the
sanitized title, a dot, and the extension given by the fixed five-entry
format table, with the formatted transcript as content; applying the
same write outcome twice to the directory equals applying it once, so an
existing file is overwritten and a re-run with identical title and
content leaves the second run output. -/
theorem transcript_written_and_overwritten {τ : Type} (env : WorkerEnv τ)
    (fs : FileSystem) (url fmt video_id ext : String) (tr : τ)
    (hid : get_video_id url = Except.ok (some video_id))
    (hne : video_id ≠ "")
    (htr : env.get_transcript video_id none = Except.ok tr)
    (hext : formatter_ext fmt = some ext) :
    (transcriptWorkerRun env url fmt).1
      = WorkerOutcome.writeFile
          (sanitize_filename (get_video_title env.fetchTitle video_id) ++ "." ++ ext)
          (env.format_transcript fmt tr)
    ∧ applyOutcome (applyOutcome fs (transcriptWorkerRun env url fmt).1)
        (transcriptWorkerRun env url fmt).1
      = applyOutcome fs (transcriptWorkerRun env url fmt).1
    ∧ formatter_ext "JSON" = some "json"
    ∧ formatter_ext "Pretty Print" = some "txt"
    ∧ formatter_ext "Text" = some "txt"
    ∧ formatter_ext "WebVTT" = some "vtt"
    ∧ formatter_ext "SRT" = some "srt" := by
  have hrun : (transcriptWorkerRun env url fmt).1
      = WorkerOutcome.writeFile
          (sanitize_filename (get_video_title env.fetchTitle video_id) ++ "." ++ ext)
          (env.format_transcript fmt tr) := by
    simp [transcriptWorkerRun, hid, optTruthy_some video_id hne, htr, hext]
  refine ⟨hrun, ?_, rfl, rfl, rfl, rfl, rfl⟩
  rw [hrun]
  funext n
  by_cases hn :
      n = sanitize_filename (get_video_title env.fetchTitle video_id) ++ "." ++ ext
  · simp [applyOutcome, hn]
  · simp [applyOutcome, hn]

/-- An environment with a working title lookup and transcript provider. -/
def sampleEnv : WorkerEnv Nat :=
  ⟨fun _ => Except.ok "A Title",
   fun _ _ => Except.ok 7, fun _ _ => "FORMATTED"⟩

/-- Witness for C7 on a concrete watch URL with the JSON format. -/
theorem transcript_written_and_overwritten_witness :
    (transcriptWorkerRun sampleEnv
        "https://www.youtube.com/watch?v=dQw4w9WgXcQ&t=5" "JSON").1
      = WorkerOutcome.writeFile "A Title.json" "FORMATTED"
    ∧ applyOutcome
        (applyOutcome (fun _ => none)
          (transcriptWorkerRun sampleEnv
            "https://www.youtube.com/watch?v=dQw4w9WgXcQ&t=5" "JSON").1)
        (transcriptWorkerRun sampleEnv
          "https://www.youtube.com/watch?v=dQw4w9WgXcQ&t=5" "JSON").1
      = applyOutcome (fun _ => none)
          (transcriptWorkerRun sampleEnv
            "https://www.youtube.com/watch?v=dQw4w9WgXcQ&t=5" "JSON").1 := by
  have h := transcript_written_and_overwritten sampleEnv (fun _ => none)
    "https://www.youtube.com/watch?v=dQw4w9WgXcQ&t=5" "JSON" "dQw4w9WgXcQ" "json" 7
    (by decide) (by decide) rfl rfl
  exact ⟨by rw [h.1]; rfl, h.2.1⟩

/-- Every transcript-provider call the worker makes omits the languages
argument, so the provider default-language selection applies. -/
theorem transcriptWorkerRun_calls_default {τ : Type} (env : WorkerEnv τ)
    (url fmt : String) :
    ∀ call ∈ (transcriptWorkerRun env url fmt).2, call.languages = none := by
  intro call hc
  cases hgv : get_video_id url with
  | error e =>
    simp [transcriptWorkerRun, hgv] at hc
  | ok v =>
    cases ht : optTruthy v with
    | false => simp [transcriptWorkerRun, hgv, ht] at hc
    | true =>
      cases htr : env.get_transcript (v.getD "") none with
      | error e2 =>
        simp [transcriptWorkerRun, hgv, ht, htr] at hc
        simp [hc]
      | ok tr =>
        cases hfe : formatter_ext fmt with
        | none =>
          simp [transcriptWorkerRun, hgv, ht, htr, hfe] at hc
          simp [hc]
        | some ext =>
          simp [transcriptWorkerRun, hgv, ht, htr, hfe] at hc
          simp [hc]

/-- C8: the conversion worker is constructed from the stripped URL text
and the formatter name only, so two UI states differing only in the
language and translation selections produce identical worker inputs and
identical run results, and every provider fetch the run makes requests
the default-language transcript. -/
theorem language_selection_noninterference {τ : Type} (env : WorkerEnv τ)
    (ui1 ui2 : UIState)
    (hurl : ui1.urlText = ui2.urlText)
    (hfmt : ui1.formatterName = ui2.formatterName) :
    start_conversion ui1 = start_conversion ui2
    ∧ transcriptWorkerRun env (start_conversion ui1).1 (start_conversion ui1).2
        = transcriptWorkerRun env (start_conversion ui2).1 (start_conversion ui2).2
    ∧ ∀ call ∈ (transcriptWorkerRun env (start_conversion ui1).1
          (start_conversion ui1).2).2, call.languages = none := by
  have h1 : start_conversion ui1 = start_conversion ui2 := by
    simp [start_conversion, hurl, hfmt]
  exact ⟨h1, by rw [h1], transcriptWorkerRun_calls_default env _ _⟩

/-- Witness for C8: two UI states that differ only in the language and
translation selections give the same worker input, the same run result,
and a trace whose single provider call carries no language list. -/
theorem language_selection_noninterference_witness :
    start_conversion ⟨"https://youtu.be/dQw4w9WgXcQ", "SRT", 0, 0⟩
      = start_conversion ⟨"https://youtu.be/dQw4w9WgXcQ", "SRT", 3, 5⟩
    ∧ transcriptWorkerRun sampleEnv
        (start_conversion ⟨"https://youtu.be/dQw4w9WgXcQ", "SRT", 0, 0⟩).1
        (start_conversion ⟨"https://youtu.be/dQw4w9WgXcQ", "SRT", 0, 0⟩).2
      = transcriptWorkerRun sampleEnv
        (start_conversion ⟨"https://youtu.be/dQw4w9WgXcQ", "SRT", 3, 5⟩).1
        (start_conversion ⟨"https://youtu.be/dQw4w9WgXcQ", "SRT", 3, 5⟩).2
    ∧ (transcriptWorkerRun sampleEnv
        (start_conversion ⟨"https://youtu.be/dQw4w9WgXcQ", "SRT", 0, 0⟩).1
        (start_conversion ⟨"https://youtu.be/dQw4w9WgXcQ", "SRT", 0, 0⟩).2).2
      = [⟨"dQw4w9WgXcQ", none⟩] := by
  have h := language_selection_noninterference sampleEnv
    ⟨"https://youtu.be/dQw4w9WgXcQ", "SRT", 0, 0⟩
    ⟨"https://youtu.be/dQw4w9WgXcQ", "SRT", 3, 5⟩ rfl rfl
  exact ⟨h.1, h.2.1, by decide⟩

/-- Witness for C9 at the concrete short-link input. -/
theorem shortlink_empty_id_rejected_witness :
    get_video_id "https://youtu.be/" = Except.ok (some "")
    ∧ listWorkerRun (fun _ => Except.error (PyError.other "unreached") : String → Except PyError Nat)
        "https://youtu.be/"
        = (ListOutcome.emitError "Could not extract video ID from URL", []) :=
  shortlink_empty_id_rejected
    (fun _ => Except.error (PyError.other "unreached")) "https://youtu.be/"
    (by decide) (by decide)

end YTGui
